import Mathlib

/-!
Verification of the chart-buddy candlestick core.

Shallow embedding of three parts of the repository:

* the pattern classifier of `supabase/functions/pattern-detection/index.ts`
  (candle geometry helpers, the twelve rule functions and `detectPatterns`);
* the indicator library (`calculateSMA`, `calculateRSI`);
* the signal aggregator of `src/stores/patternStore.ts`
  (`addPattern`, `setConfig` and the per-symbol pattern map).

Prices are modelled as exact rationals.  The JavaScript `NaN` sentinel of
indicator series is modelled as `Option.none`.  JavaScript division by zero
(which yields `Infinity` or `NaN` rather than raising) is modelled explicitly
at the only two places the source divides without a zero guard: the marubozu
`body / range` test and the RSI `avgGain / avgLoss` ratio; everywhere else the
source's own guards make the divisor provably nonzero, so field division on
the rationals agrees with the JavaScript behaviour.  Display-only string
fields (`description`, `id`) are omitted from the embedded records.
-/

set_option allowUnsafeReducibility true

attribute [semireducible] Rat.add Rat.mul Rat.inv Rat.sub Rat.neg Rat.div Int.tdiv Rat.maybeNormalize Rat.normalize Rat.ofScientific

/-- A JavaScript number appearing as a confidence score: either a finite
value or `Infinity` (which arises from `body / range` on a zero-range bar in
the marubozu rule). -/
inductive JNum where
  | fin : ℚ → JNum
  | inf : JNum
deriving DecidableEq, Repr

/-- One OHLC bar (`Candle` in the source).  `volume` is optional and
`timestamp` is carried but never read by the detection rules. -/
structure Candle where
  «open» : ℚ
  high : ℚ
  low : ℚ
  close : ℚ
  volume : Option ℚ
  timestamp : ℤ
deriving DecidableEq, Repr

/-- Body of a bar: `Math.abs(c.close - c.open)`. -/
def bodySize (c : Candle) : ℚ := |c.close - c.«open»|

/-- Upper wick: `c.high - Math.max(c.open, c.close)`. -/
def upperWick (c : Candle) : ℚ := c.high - max c.«open» c.close

/-- Lower wick: `Math.min(c.open, c.close) - c.low`. -/
def lowerWick (c : Candle) : ℚ := min c.«open» c.close - c.low

/-- Bullish bar: `c.close > c.open`. -/
def isBullish (c : Candle) : Prop := c.close > c.«open»

/-- Bearish bar: `c.close < c.open`. -/
def isBearish (c : Candle) : Prop := c.close < c.«open»

/-- Full range of a bar: `c.high - c.low`. -/
def candleRange (c : Candle) : ℚ := c.high - c.low

instance (c : Candle) : Decidable (isBullish c) := by unfold isBullish; infer_instance

instance (c : Candle) : Decidable (isBearish c) := by unfold isBearish; infer_instance

/-- Average body size over a list of candles; `0` on the empty list
(`avgBodySize` in the source). -/
def avgBodySize (candles : List Candle) : ℚ :=
  if candles.length = 0 then 0
  else (candles.map bodySize).sum / candles.length

inductive PatternType where
  | bullish
  | bearish
  | neutral
deriving DecidableEq, Repr

/-- Result of one rule (`PatternResult` in the source); the display-only
`description` string is omitted. -/
structure PatternResult where
  patternName : String
  patternType : PatternType
  confidence : JNum
deriving DecidableEq, Repr

/-- The last `n` elements of a list; models JavaScript `l.slice(-n)`. -/
def lastN (n : ℕ) (l : List α) : List α := l.drop (l.length - n)

/-- Strictly decreasing closes at every adjacent pair; models
`arr.every((c, i, arr) => i === 0 || c.close < arr[i-1].close)`. -/
def closesStrictlyDecreasing (l : List Candle) : Prop :=
  ∀ p ∈ l.zip l.tail, p.2.close < p.1.close

/-- Strictly increasing closes at every adjacent pair. -/
def closesStrictlyIncreasing (l : List Candle) : Prop :=
  ∀ p ∈ l.zip l.tail, p.2.close > p.1.close

instance (l : List Candle) : Decidable (closesStrictlyDecreasing l) := by
  unfold closesStrictlyDecreasing; infer_instance

instance (l : List Candle) : Decidable (closesStrictlyIncreasing l) := by
  unfold closesStrictlyIncreasing; infer_instance

/-- Downtrend context: at least 3 prior candles and the last 3 of them have
strictly decreasing closes. -/
def inDowntrend (prevCandles : List Candle) : Prop :=
  3 ≤ prevCandles.length ∧ closesStrictlyDecreasing (lastN 3 prevCandles)

/-- Uptrend context: at least 3 prior candles and the last 3 of them have
strictly increasing closes. -/
def inUptrend (prevCandles : List Candle) : Prop :=
  3 ≤ prevCandles.length ∧ closesStrictlyIncreasing (lastN 3 prevCandles)

instance (l : List Candle) : Decidable (inDowntrend l) := by
  unfold inDowntrend; infer_instance

instance (l : List Candle) : Decidable (inUptrend l) := by
  unfold inUptrend; infer_instance

/-- Doji rule (`detectDoji`).  The sub-type computed in the source feeds only
the omitted description string. -/
def detectDoji (candle : Candle) (avgBody : ℚ) : Option PatternResult :=
  if candleRange candle > 0 ∧ bodySize candle / candleRange candle < 0.1 ∧
      bodySize candle < avgBody * 0.2 then
    some ⟨"doji", .neutral,
      .fin (0.7 + (1 - bodySize candle / candleRange candle) * 0.2)⟩
  else none

/-- Hammer rule (`detectHammer`). -/
def detectHammer (candle : Candle) (avgBody : ℚ) (prevCandles : List Candle) :
    Option PatternResult :=
  if bodySize candle > avgBody * 0.3 ∧ lowerWick candle ≥ bodySize candle * 2 ∧
      upperWick candle < bodySize candle * 0.5 ∧ candleRange candle > avgBody * 0.5 then
    some ⟨"hammer", .bullish,
      .fin (min (0.65 + lowerWick candle / bodySize candle / 10 +
        (if inDowntrend prevCandles then 0.15 else 0)) 0.95)⟩
  else none

/-- Inverted hammer rule (`detectInvertedHammer`). -/
def detectInvertedHammer (candle : Candle) (avgBody : ℚ) (prevCandles : List Candle) :
    Option PatternResult :=
  if bodySize candle > avgBody * 0.3 ∧ upperWick candle ≥ bodySize candle * 2 ∧
      lowerWick candle < bodySize candle * 0.5 ∧ candleRange candle > avgBody * 0.5 then
    some ⟨"inverted_hammer", .bullish,
      .fin (min (0.6 + upperWick candle / bodySize candle / 10 +
        (if inDowntrend prevCandles then 0.15 else 0)) 0.9)⟩
  else none

/-- Hanging man rule (`detectHangingMan`): the hammer geometry, plus a hard
uptrend requirement. -/
def detectHangingMan (candle : Candle) (avgBody : ℚ) (prevCandles : List Candle) :
    Option PatternResult :=
  if bodySize candle > avgBody * 0.3 ∧ lowerWick candle ≥ bodySize candle * 2 ∧
      upperWick candle < bodySize candle * 0.5 ∧ candleRange candle > avgBody * 0.5 then
    if inUptrend prevCandles then
      some ⟨"hanging_man", .bearish,
        .fin (min (0.6 + lowerWick candle / bodySize candle / 10) 0.85)⟩
    else none
  else none

/-- Engulfing rule (`detectEngulfing`), bullish branch then bearish branch. -/
def detectEngulfing (curr : Candle) (prev : Candle) : Option PatternResult :=
  if isBearish prev ∧ isBullish curr ∧ curr.«open» < prev.close ∧
      curr.close > prev.«open» ∧ bodySize curr > bodySize prev * 1.5 then
    some ⟨"bullish_engulfing", .bullish,
      .fin (0.75 + min (bodySize curr / bodySize prev / 10) 0.2)⟩
  else if isBullish prev ∧ isBearish curr ∧ curr.«open» > prev.close ∧
      curr.close < prev.«open» ∧ bodySize curr > bodySize prev * 1.5 then
    some ⟨"bearish_engulfing", .bearish,
      .fin (0.75 + min (bodySize curr / bodySize prev / 10) 0.2)⟩
  else none

/-- Harami rule (`detectHarami`), bullish branch then bearish branch. -/
def detectHarami (curr : Candle) (prev : Candle) : Option PatternResult :=
  if isBearish prev ∧ isBullish curr ∧ curr.close < prev.«open» ∧
      curr.«open» > prev.close ∧ bodySize curr < bodySize prev * 0.5 then
    some ⟨"bullish_harami", .bullish, .fin 0.65⟩
  else if isBullish prev ∧ isBearish curr ∧ curr.«open» < prev.close ∧
      curr.close > prev.«open» ∧ bodySize curr < bodySize prev * 0.5 then
    some ⟨"bearish_harami", .bearish, .fin 0.65⟩
  else none

/-- Morning star rule (`detectMorningStar`); `lastN 3` models `slice(-3)`,
and it returns three elements exactly when the list has at least three. -/
def detectMorningStar (candles : List Candle) : Option PatternResult :=
  match lastN 3 candles with
  | [first, second, third] =>
    if isBearish first ∧ bodySize first > bodySize second * 2 ∧
        isBullish third ∧ bodySize third > bodySize second * 2 ∧
        third.close > (first.«open» + first.close) / 2 ∧
        second.close < first.close ∧ second.close < third.«open» then
      some ⟨"morning_star", .bullish, .fin 0.8⟩
    else none
  | _ => none

/-- Evening star rule (`detectEveningStar`). -/
def detectEveningStar (candles : List Candle) : Option PatternResult :=
  match lastN 3 candles with
  | [first, second, third] =>
    if isBullish first ∧ bodySize first > bodySize second * 2 ∧
        isBearish third ∧ bodySize third > bodySize second * 2 ∧
        third.close < (first.«open» + first.close) / 2 ∧
        second.close > first.close ∧ second.close > third.«open» then
      some ⟨"evening_star", .bearish, .fin 0.8⟩
    else none
  | _ => none

/-- Three white soldiers rule (`detectThreeWhiteSoldiers`); the `every`
checks of the source are expanded over the three bars of `slice(-3)`. -/
def detectThreeWhiteSoldiers (candles : List Candle) : Option PatternResult :=
  match lastN 3 candles with
  | [a, b, c] =>
    if isBullish a ∧ isBullish b ∧ isBullish c ∧
        b.«open» > a.«open» ∧ b.close > a.close ∧
        c.«open» > b.«open» ∧ c.close > b.close ∧
        upperWick a < bodySize a * 0.3 ∧ upperWick b < bodySize b * 0.3 ∧
        upperWick c < bodySize c * 0.3 then
      some ⟨"three_white_soldiers", .bullish, .fin 0.85⟩
    else none
  | _ => none

/-- Three black crows rule (`detectThreeBlackCrows`). -/
def detectThreeBlackCrows (candles : List Candle) : Option PatternResult :=
  match lastN 3 candles with
  | [a, b, c] =>
    if isBearish a ∧ isBearish b ∧ isBearish c ∧
        b.«open» < a.«open» ∧ b.close < a.close ∧
        c.«open» < b.«open» ∧ c.close < b.close ∧
        lowerWick a < bodySize a * 0.3 ∧ lowerWick b < bodySize b * 0.3 ∧
        lowerWick c < bodySize c * 0.3 then
      some ⟨"three_black_crows", .bearish, .fin 0.85⟩
    else none
  | _ => none

/-- Spinning top rule (`detectSpinningTop`). -/
def detectSpinningTop (candle : Candle) (avgBody : ℚ) : Option PatternResult :=
  if bodySize candle < avgBody * 0.5 ∧ upperWick candle > bodySize candle ∧
      lowerWick candle > bodySize candle ∧ candleRange candle > avgBody * 0.8 then
    some ⟨"spinning_top", .neutral, .fin 0.6⟩
  else none

/-- Marubozu rule (`detectMarubozu`).  The source compares
`body / range > 0.95` without a zero guard, so the embedding case-splits on
the divisor: in JavaScript, on a zero-range bar `body / 0` is `Infinity`
when `body > 0` (the comparison holds, and the confidence
`0.7 + Infinity * 0.2` is `Infinity`) and `NaN` when `body = 0` (the
comparison fails); the body is an absolute value, so it is never negative.
On a nonzero range the rational division agrees with JavaScript. -/
def detectMarubozu (candle : Candle) (avgBody : ℚ) : Option PatternResult :=
  if candleRange candle = 0 then
    if bodySize candle > avgBody * 1.5 ∧ upperWick candle < bodySize candle * 0.05 ∧
        lowerWick candle < bodySize candle * 0.05 ∧ 0 < bodySize candle then
      some ⟨"marubozu", (if isBullish candle then PatternType.bullish else .bearish),
        JNum.inf⟩
    else none
  else
    if bodySize candle > avgBody * 1.5 ∧ upperWick candle < bodySize candle * 0.05 ∧
        lowerWick candle < bodySize candle * 0.05 ∧
        bodySize candle / candleRange candle > 0.95 then
      some ⟨"marubozu", (if isBullish candle then PatternType.bullish else .bearish),
        .fin (0.7 + bodySize candle / candleRange candle * 0.2)⟩
    else none

/-- Placeholder candle used for the (unreachable) out-of-range index default
in `detectPatterns`; the source indexes `candles[candles.length - 1]` only
after the length check. -/
def defaultCandle : Candle := ⟨0, 0, 0, 0, none, 0⟩

/-- The most recent candle, `candles[candles.length - 1]`. -/
def currentOf (candles : List Candle) : Candle :=
  candles.getD (candles.length - 1) defaultCandle

/-- The second-to-last candle, `candles[candles.length - 2]`. -/
def prevOf (candles : List Candle) : Candle :=
  candles.getD (candles.length - 2) defaultCandle

/-- Trailing average body, `avgBodySize(candles.slice(-20))`. -/
def avgBodyOf (candles : List Candle) : ℚ := avgBodySize (lastN 20 candles)

/-- Main classifier (`detectPatterns`): fails closed on fewer than three
candles, otherwise runs the twelve rules in source order; the source's
conditional `push` calls are the concatenation of the optional singletons. -/
def detectPatterns (candles : List Candle) : List PatternResult :=
  if candles.length < 3 then []
  else
    (detectDoji (currentOf candles) (avgBodyOf candles)).toList ++
    (detectHammer (currentOf candles) (avgBodyOf candles) candles.dropLast).toList ++
    (detectInvertedHammer (currentOf candles) (avgBodyOf candles) candles.dropLast).toList ++
    (detectHangingMan (currentOf candles) (avgBodyOf candles) candles.dropLast).toList ++
    (detectSpinningTop (currentOf candles) (avgBodyOf candles)).toList ++
    (detectMarubozu (currentOf candles) (avgBodyOf candles)).toList ++
    (detectEngulfing (currentOf candles) (prevOf candles)).toList ++
    (detectHarami (currentOf candles) (prevOf candles)).toList ++
    (detectMorningStar candles).toList ++
    (detectEveningStar candles).toList ++
    (detectThreeWhiteSoldiers candles).toList ++
    (detectThreeBlackCrows candles).toList

/-- Simple moving average (`calculateSMA` of the indicator file): `NaN`
(here `none`) for the first `period - 1` indices, then the mean of the
trailing window `data.slice(i - period + 1, i + 1)`.  With `period = 0` the
JavaScript else-branch computes `0 / 0 = NaN`, modelled by the second
branch. -/
def calculateSMA (data : List ℚ) (period : ℕ) : List (Option ℚ) :=
  (List.range data.length).map fun i =>
    if i + 1 < period then none
    else if period = 0 then none
    else some (((data.drop (i + 1 - period)).take period).sum / (period : ℚ))

/-- Per-bar close deltas, `closes[i] - closes[i-1]`. -/
def changesOf (closes : List ℚ) : List ℚ :=
  (closes.zip closes.tail).map fun p => p.2 - p.1

/-- Positive deltas, zero otherwise. -/
def gainsOf (closes : List ℚ) : List ℚ :=
  (changesOf closes).map fun c => if c > 0 then c else 0

/-- Negated negative deltas, zero otherwise. -/
def lossesOf (closes : List ℚ) : List ℚ :=
  (changesOf closes).map fun c => if c < 0 then -c else 0

/-- The RSI value the source pushes from finite average gain `g` and average
loss `l`, after the `isFinite(rsiValue) ? rsiValue : 50` substitution.  In
JavaScript: if `l = 0` then `g / l` is `NaN` (when `g = 0`, giving a
non-finite chain, hence 50) or `±Infinity` (when `g ≠ 0`; both signs make
`100 - 100 / (1 + g / l)` collapse to the finite value 100).  If `l ≠ 0` but
`1 + g / l = 0`, the division `100 / 0` is infinite, so 50 is substituted;
otherwise the finite formula itself is returned. -/
def rsiValue (g l : ℚ) : Option ℚ :=
  if l = 0 then (if g = 0 then some 50 else some 100)
  else if 1 + g / l = 0 then some 50
  else some (100 - 100 / (1 + g / l))

/-- Relative strength index (`calculateRSI`): sentinel for the first
`period` bars, then `100 - 100/(1 + avgGain/avgLoss)` built from the SMA of
gains and losses at index `i - 1` of the delta series, with non-finite
values replaced by 50.  A `NaN` (`none`) average operand propagates to a
non-finite value, hence also 50.  The `time` field the source carries along
is display-only and omitted. -/
def calculateRSI (closes : List ℚ) (period : ℕ) : List (Option ℚ) :=
  (List.range closes.length).map fun i =>
    if i < period then none
    else
      match (calculateSMA (gainsOf closes) period).getD (i - 1) none,
            (calculateSMA (lossesOf closes) period).getD (i - 1) none with
      | some g, some l => rsiValue g l
      | _, _ => some 50

/-- A stored pattern signal (`PatternSignal` of `patternStore.ts`); the
display-only optional `description` is omitted. -/
structure PatternSignal where
  id : String
  patternName : String
  patternType : PatternType
  confidence : ℚ
  timestamp : ℤ
  price : ℚ
  high : ℚ
  low : ℚ
  symbol : String
  timeframe : String
  detectedAt : ℤ
deriving DecidableEq, Repr

/-- Aggregator configuration (`PatternConfig`). -/
structure PatternConfig where
  minConfidence : ℚ
  enabledPatterns : List String
  showBullish : Bool
  showBearish : Bool
  showNeutral : Bool
  maxPatterns : ℤ
  alertOnHighConfidence : Bool
  highConfidenceThreshold : ℚ
deriving DecidableEq, Repr

/-- `DEFAULT_CONFIG` of the store. -/
def DEFAULT_CONFIG : PatternConfig :=
  { minConfidence := 0.6
    enabledPatterns :=
      ["doji", "hammer", "inverted_hammer", "hanging_man",
       "bullish_engulfing", "bearish_engulfing",
       "bullish_harami", "bearish_harami",
       "morning_star", "evening_star",
       "three_white_soldiers", "three_black_crows",
       "piercing_line", "dark_cloud_cover",
       "spinning_top", "marubozu"]
    showBullish := true
    showBearish := true
    showNeutral := true
    maxPatterns := 100
    alertOnHighConfidence := true
    highConfidenceThreshold := 0.85 }

/-- A `Partial<PatternConfig>` update: every field optional. -/
structure ConfigPatch where
  minConfidence : Option ℚ
  enabledPatterns : Option (List String)
  showBullish : Option Bool
  showBearish : Option Bool
  showNeutral : Option Bool
  maxPatterns : Option ℤ
  alertOnHighConfidence : Option Bool
  highConfidenceThreshold : Option ℚ
deriving DecidableEq, Repr

/-- The empty update (no field supplied). -/
def emptyPatch : ConfigPatch := ⟨none, none, none, none, none, none, none, none⟩

/-- Aggregator state: the per-symbol pattern map (a `Map` in the source,
modelled as an association list) and the configuration. -/
structure PatternStore where
  patterns : List (String × List PatternSignal)
  config : PatternConfig
deriving DecidableEq, Repr

/-- Map lookup with the source's `|| []` default. -/
def mapGet (m : List (String × List PatternSignal)) (k : String) : List PatternSignal :=
  match m.find? (fun e => e.1 == k) with
  | some e => e.2
  | none => []

/-- Map update (`Map.set`): replace the binding for `k`, or append one. -/
def mapSet (m : List (String × List PatternSignal)) (k : String)
    (v : List PatternSignal) : List (String × List PatternSignal) :=
  match m with
  | [] => [(k, v)]
  | e :: rest => if e.1 == k then (k, v) :: rest else e :: mapSet rest k v

/-- JavaScript `l.slice(0, n)` on an integer `n`: a negative bound counts
from the end. -/
def jsTake (l : List α) (n : ℤ) : List α :=
  if n < 0 then l.take (l.length - (-n).toNat) else l.take n.toNat

/-- The duplicate test of `addPattern`: some stored signal shares the
pattern name and is less than 60 000 ms away. -/
def isDuplicate (symbolPatterns : List PatternSignal) (pattern : PatternSignal) : Prop :=
  ∃ p ∈ symbolPatterns,
    p.patternName = pattern.patternName ∧ |p.detectedAt - pattern.detectedAt| < 60000

instance (l : List PatternSignal) (p : PatternSignal) : Decidable (isDuplicate l p) := by
  unfold isDuplicate; infer_instance

/-- `addPattern`: silently drop a duplicate, otherwise prepend and truncate
the symbol's list to `config.maxPatterns`. -/
def addPattern (st : PatternStore) (pattern : PatternSignal) : PatternStore :=
  if isDuplicate (mapGet st.patterns pattern.symbol) pattern then st
  else
    { patterns := mapSet st.patterns pattern.symbol
        (jsTake (pattern :: mapGet st.patterns pattern.symbol) st.config.maxPatterns)
      config := st.config }

/-- Ingest a batch of signals in order. -/
def ingestAll (st : PatternStore) (l : List PatternSignal) : PatternStore :=
  l.foldl addPattern st

/-- `setConfig`: spread-merge the partial update over the stored config,
with no validation. -/
def setConfig (st : PatternStore) (u : ConfigPatch) : PatternStore :=
  { patterns := st.patterns
    config :=
      { minConfidence := u.minConfidence.getD st.config.minConfidence
        enabledPatterns := u.enabledPatterns.getD st.config.enabledPatterns
        showBullish := u.showBullish.getD st.config.showBullish
        showBearish := u.showBearish.getD st.config.showBearish
        showNeutral := u.showNeutral.getD st.config.showNeutral
        maxPatterns := u.maxPatterns.getD st.config.maxPatterns
        alertOnHighConfidence := u.alertOnHighConfidence.getD st.config.alertOnHighConfidence
        highConfidenceThreshold :=
          u.highConfidenceThreshold.getD st.config.highConfidenceThreshold } }

/-- The configuration validity demanded by the specification: positive
`maxPatterns` and both thresholds inside the unit interval. -/
def validConfig (c : PatternConfig) : Prop :=
  0 < c.maxPatterns ∧ 0 ≤ c.minConfidence ∧ c.minConfidence ≤ 1 ∧
  0 ≤ c.highConfidenceThreshold ∧ c.highConfidenceThreshold ≤ 1

instance (c : PatternConfig) : Decidable (validConfig c) := by
  unfold validConfig; infer_instance

/-- The specification's per-rule confidence ceiling, keyed by pattern name. -/
def ruleCap (name : String) : ℚ :=
  if name = "doji" then 0.9
  else if name = "hammer" then 0.95
  else if name = "inverted_hammer" then 0.9
  else if name = "hanging_man" then 0.85
  else if name = "spinning_top" then 0.6
  else if name = "marubozu" then 0.9
  else if name = "bullish_engulfing" ∨ name = "bearish_engulfing" then 0.95
  else if name = "bullish_harami" ∨ name = "bearish_harami" then 0.65
  else if name = "morning_star" ∨ name = "evening_star" then 0.8
  else if name = "three_white_soldiers" ∨ name = "three_black_crows" then 0.85
  else 1

/-- The fixed-confidence rules and their constants. -/
def fixedConf (name : String) : Option ℚ :=
  if name = "spinning_top" then some 0.6
  else if name = "bullish_harami" ∨ name = "bearish_harami" then some 0.65
  else if name = "morning_star" ∨ name = "evening_star" then some 0.8
  else if name = "three_white_soldiers" ∨ name = "three_black_crows" then some 0.85
  else none

/-- Two signals are non-duplicates: they do not share a pattern name within
the one-minute window. -/
def nondup (a b : PatternSignal) : Prop :=
  ¬ (a.patternName = b.patternName ∧ |a.detectedAt - b.detectedAt| < 60000)

instance (a b : PatternSignal) : Decidable (nondup a b) := by
  unfold nondup; infer_instance

/-- A store holding the default configuration and no patterns. -/
def defaultStore : PatternStore := ⟨[], DEFAULT_CONFIG⟩

/-- A partial update carrying only an invalid `maxPatterns`. -/
def badPatch : ConfigPatch := ⟨none, none, none, none, none, some (-5), none, none⟩

/-- A flat bar (every price equal to `p`). -/
def flatCandle (p : ℚ) : Candle := ⟨p, p, p, p, none, 0⟩

/-- Closes that only ever rise by 1: every delta is a gain, every loss is
zero. -/
def risingCloses : List ℚ := [0, 1, 2, 3, 4, 5, 6, 7, 8, 9, 10, 11, 12, 13, 14]

/-- A geometry-violating bar (`high < close`, `low > open`) whose range is
zero while its body is 10. -/
def zeroRangeBigBody : Candle := ⟨0, 5, 5, 10, none, 0⟩

/-- A geometry-violating bar whose body (10) is twice its range (5). -/
def bodyOverRange : Candle := ⟨0, 5, 0, 10, none, 0⟩

/-- Three bars ending in the zero-range big-body bar. -/
def zeroRangeList : List Candle := [flatCandle 1, flatCandle 1, zeroRangeBigBody]

/-- Three bars ending in the body-over-range bar. -/
def bodyOverRangeList : List Candle := [flatCandle 1, flatCandle 1, bodyOverRange]

/-- Three rising flat bars followed by a hammer-shaped bar: the uptrend makes
both the hammer and the hanging-man rule fire on the last bar. -/
def hangingManExample : List Candle :=
  [flatCandle 1, flatCandle 2, flatCandle 3, ⟨10, 56/5, 8, 11, none, 0⟩]

/-- A signal used in concrete store scenarios. -/
def mkSig (id : String) (name : String) (detectedAt : ℤ) : PatternSignal :=
  ⟨id, name, .neutral, 0.9, 0, 1, 1, 1, "X", "1D", detectedAt⟩

/-- A store already holding one doji signal (detected at time 0) for
symbol `X`. -/
def storeWithDoji : PatternStore := ⟨[("X", [mkSig "e" "doji" 0])], DEFAULT_CONFIG⟩

/-- A store limited to two stored patterns per symbol. -/
def smallStore : PatternStore :=
  ⟨[], { DEFAULT_CONFIG with maxPatterns := 2 }⟩

/-! ## General helper lemmas -/

theorem bodySize_nonneg (c : Candle) : 0 ≤ bodySize c := abs_nonneg _

theorem avgBodySize_nonneg (candles : List Candle) : 0 ≤ avgBodySize candles := by
  unfold avgBodySize
  split
  · exact le_refl 0
  · apply div_nonneg
    · apply List.sum_nonneg
      intro x hx
      obtain ⟨c, _, rfl⟩ := List.mem_map.mp hx
      exact bodySize_nonneg c
    · exact Nat.cast_nonneg _

theorem getD_range_map (f : ℕ → α) (n i : ℕ) (d : α) :
    ((List.range n).map f).getD i d = if i < n then f i else d := by
  by_cases h : i < n
  · rw [if_pos h, List.getD_eq_getElem?_getD, List.getElem?_map,
      List.getElem?_range h]
    rfl
  · rw [if_neg h, List.getD_eq_getElem?_getD, List.getElem?_map,
      List.getElem?_eq_none (by simpa using h)]
    rfl

/-! ## C4 -/

/-- C4: for every candle list of length strictly less than 3, the classifier
returns the empty list of pattern signals (and, being a total function,
cannot throw). -/
theorem c4_short_input_fails_closed (candles : List Candle)
    (h : candles.length < 3) : detectPatterns candles = [] := by
  unfold detectPatterns
  rw [if_pos h]

theorem c4_witness : detectPatterns [flatCandle 1, flatCandle 2] = [] :=
  c4_short_input_fails_closed [flatCandle 1, flatCandle 2] (by decide)

/-! ## C9 -/

/-- C9: for every series and every period `1 ≤ p ≤ length`, the SMA output
has the input's length, its first `p - 1` entries are the sentinel, and every
entry at an index `i ≥ p - 1` is the arithmetic mean of the trailing window
of exactly `p` input values ending at `i`. -/
theorem c9_sma_alignment (data : List ℚ) (period : ℕ)
    (hp : 1 ≤ period) (hple : period ≤ data.length) :
    (calculateSMA data period).length = data.length ∧
    (∀ i, i + 1 < period → (calculateSMA data period).getD i (some 0) = none) ∧
    (∀ i, period ≤ i + 1 → i < data.length →
      ((data.drop (i + 1 - period)).take period).length = period ∧
      (calculateSMA data period).getD i none =
        some (((data.drop (i + 1 - period)).take period).sum / (period : ℚ))) := by
  refine ⟨?_, ?_, ?_⟩
  · unfold calculateSMA
    rw [List.length_map, List.length_range]
  · intro i hi
    unfold calculateSMA
    rw [getD_range_map, if_pos (by omega), if_pos hi]
  · intro i hi hilen
    constructor
    · rw [List.length_take, List.length_drop]
      omega
    · unfold calculateSMA
      rw [getD_range_map, if_pos hilen, if_neg (by omega), if_neg (by omega)]

theorem c9_witness :
    (calculateSMA [1, 2, 3] 2).length = [(1 : ℚ), 2, 3].length :=
  (c9_sma_alignment [1, 2, 3] 2 (by decide) (by decide)).1

/-! ## C1 -/

/-- C1 (counterexample): on strictly rising closes the trailing average loss
of the 14-bar window ending at index 14 is zero, yet the reported RSI there
is 100, not the 50 the claim demands. -/
theorem c1_cex :
    (calculateSMA (lossesOf risingCloses) 14).getD 13 none = some 0 ∧
    (calculateRSI risingCloses 14).getD 14 none = some 100 ∧
    (calculateRSI risingCloses 14).getD 14 none ≠ some 50 := by
  refine ⟨by decide, by decide, by decide⟩

/-- C1 (amended): at an output index `i` with `1 ≤ period ≤ i < length`
where the trailing average loss is zero, the reported RSI is 100 when the
trailing average gain is nonzero and 50 when it is also zero — a finite
value in both cases, never `NaN`. -/
theorem c1_rsi_zero_loss_value (closes : List ℚ) (period i : ℕ) (g : ℚ)
    (_hp : 1 ≤ period) (hpi : period ≤ i) (hi : i < closes.length)
    (hg : (calculateSMA (gainsOf closes) period).getD (i - 1) none = some g)
    (hl : (calculateSMA (lossesOf closes) period).getD (i - 1) none = some 0) :
    (calculateRSI closes period).getD i none =
      some (if g = 0 then (50 : ℚ) else 100) := by
  unfold calculateRSI
  rw [getD_range_map, if_pos hi]
  simp only [if_neg (by omega : ¬ i < period), hg, hl]
  unfold rsiValue
  rw [if_pos rfl]
  by_cases hg0 : g = 0
  · rw [if_pos hg0, if_pos hg0]
  · rw [if_neg hg0, if_neg hg0]

theorem c1_witness :
    (calculateRSI [(0 : ℚ), 1, 2] 1).getD 1 none = some 100 := by
  have h := c1_rsi_zero_loss_value [(0 : ℚ), 1, 2] 1 1 1 (by decide) (by decide)
    (by decide) (by decide) (by decide)
  simpa using h

/-! ## C5 -/

/-- C5: the bullish-engulfing branch fires only under its four geometric
conditions together with the strict `currBody > 1.5 * prevBody` threshold;
and on the concrete boundary pair (bodies 13 versus 10, where 13 < 15) no
engulfing signal is emitted at all. -/
theorem c5_bullish_engulfing_strict (curr prev : Candle) :
    (∀ r : PatternResult,
      detectEngulfing curr prev = some r → r.patternName = "bullish_engulfing" →
      isBearish prev ∧ isBullish curr ∧ curr.«open» < prev.close ∧
      curr.close > prev.«open» ∧ bodySize curr > bodySize prev * 1.5) ∧
    detectEngulfing ⟨99, 112, 99, 112, none, 0⟩ ⟨110, 110, 100, 100, none, 0⟩ = none := by
  constructor
  · intro r h hname
    unfold detectEngulfing at h
    split at h
    case isTrue hc =>
      exact hc
    case isFalse =>
      split at h
      case isTrue =>
        injection h with h
        subst h
        have hne : ("bearish_engulfing" : String) ≠ "bullish_engulfing" := by decide
        exact absurd hname hne
      case isFalse =>
        exact absurd h (by simp)
  · decide

theorem c5_witness :
    isBearish (⟨110, 110, 100, 100, none, 0⟩ : Candle) ∧
    isBullish (⟨99, 116, 99, 116, none, 0⟩ : Candle) ∧
    (⟨99, 116, 99, 116, none, 0⟩ : Candle).«open» <
      (⟨110, 110, 100, 100, none, 0⟩ : Candle).close ∧
    (⟨99, 116, 99, 116, none, 0⟩ : Candle).close >
      (⟨110, 110, 100, 100, none, 0⟩ : Candle).«open» ∧
    bodySize ⟨99, 116, 99, 116, none, 0⟩ >
      bodySize ⟨110, 110, 100, 100, none, 0⟩ * 1.5 :=
  (c5_bullish_engulfing_strict ⟨99, 116, 99, 116, none, 0⟩
      ⟨110, 110, 100, 100, none, 0⟩).1
    ⟨"bullish_engulfing", .bullish, .fin (0.75 + min (17/10/10) 0.2)⟩
    (by decide) rfl

/-! ## C7 -/

/-- C7 (counterexample): starting from the valid default configuration, a
partial update with `maxPatterns = -5` is accepted verbatim by `setConfig`:
the stored configuration changes and becomes invalid. -/
theorem c7_cex :
    validConfig defaultStore.config ∧
    (setConfig defaultStore badPatch).config ≠ defaultStore.config ∧
    ¬ validConfig (setConfig defaultStore badPatch).config := by
  refine ⟨by decide, by decide, by decide⟩

/-- C7 (amended): `setConfig` performs no validation at all — every supplied
field of the partial update (valid or not) overwrites the stored value
verbatim, every omitted field is kept, and the pattern history is
untouched. -/
theorem c7_set_config_merges_unvalidated (st : PatternStore) (u : ConfigPatch) :
    (setConfig st u).patterns = st.patterns ∧
    (∀ q, u.minConfidence = some q → (setConfig st u).config.minConfidence = q) ∧
    (u.minConfidence = none →
      (setConfig st u).config.minConfidence = st.config.minConfidence) ∧
    (∀ n, u.maxPatterns = some n → (setConfig st u).config.maxPatterns = n) ∧
    (u.maxPatterns = none →
      (setConfig st u).config.maxPatterns = st.config.maxPatterns) ∧
    (∀ q, u.highConfidenceThreshold = some q →
      (setConfig st u).config.highConfidenceThreshold = q) ∧
    (u.highConfidenceThreshold = none →
      (setConfig st u).config.highConfidenceThreshold =
        st.config.highConfidenceThreshold) := by
  refine ⟨rfl, ?_, ?_, ?_, ?_, ?_, ?_⟩ <;>
    first
      | (intro q hq; simp [setConfig, hq])
      | (intro hq; simp [setConfig, hq])

theorem c7_witness :
    (setConfig defaultStore badPatch).config.maxPatterns = -5 :=
  (c7_set_config_merges_unvalidated defaultStore badPatch).2.2.2.1 (-5) rfl

/-! ## C8 -/

/-- C8 (counterexample): on a zero-range bar whose body is positive (a bar
violating the OHLC validity invariant, which the system accepts), the
marubozu rule does emit a signal — `body / 0` is `Infinity` in JavaScript, so
the unguarded `body / range > 0.95` test passes and the confidence is
infinite; the signal is reachable through `detectPatterns`. -/
theorem c8_cex :
    candleRange zeroRangeBigBody = 0 ∧
    detectMarubozu zeroRangeBigBody (avgBodyOf zeroRangeList) =
      some ⟨"marubozu", .bullish, .inf⟩ ∧
    (⟨"marubozu", .bullish, .inf⟩ : PatternResult) ∈ detectPatterns zeroRangeList := by
  refine ⟨by decide, by decide, by decide⟩

/-- C8 (amended): on a zero-range bar that respects the OHLC validity
invariant (so its body is also zero), and for any nonnegative average body,
neither the doji rule nor the marubozu rule emits a signal. -/
theorem c8_zero_range_guard (c : Candle) (avgBody : ℚ)
    (hrange : candleRange c = 0) (hvalid : bodySize c ≤ candleRange c)
    (_havg : 0 ≤ avgBody) :
    detectDoji c avgBody = none ∧ detectMarubozu c avgBody = none := by
  have hb0 : bodySize c = 0 :=
    le_antisymm (hrange ▸ hvalid) (bodySize_nonneg c)
  constructor
  · unfold detectDoji
    rw [if_neg]
    intro h
    rw [hrange] at h
    exact absurd h.1 (by norm_num)
  · unfold detectMarubozu
    rw [if_pos hrange, if_neg]
    intro h
    rw [hb0] at h
    exact absurd h.2.2.2 (lt_irrefl 0)

theorem c8_witness :
    detectDoji (flatCandle 1) 0 = none ∧ detectMarubozu (flatCandle 1) 0 = none :=
  c8_zero_range_guard (flatCandle 1) 0 (by decide) (by decide) (by decide)

/-! ## Store helper lemmas -/

theorem mapGet_mapSet_self (m : List (String × List PatternSignal))
    (k : String) (v : List PatternSignal) : mapGet (mapSet m k v) k = v := by
  induction m with
  | nil => simp [mapSet, mapGet, List.find?]
  | cons e rest ih =>
    by_cases h : e.1 = k
    · unfold mapSet
      rw [if_pos (by simpa using h)]
      simp [mapGet, List.find?]
    · unfold mapSet
      rw [if_neg (by simpa using h)]
      unfold mapGet at ih ⊢
      rw [List.find?_cons_of_neg _ (by simpa using h)]
      exact ih

theorem jsTake_coe (l : List α) (n : ℕ) : jsTake l (n : ℤ) = l.take n := by
  unfold jsTake
  rw [if_neg (by omega), Int.toNat_natCast]

theorem take_cons_take (x : α) (l : List α) (m : ℕ) :
    (x :: l.take m).take m = (x :: l).take m := by
  cases m with
  | zero => simp
  | succ n =>
    rw [List.take_succ_cons, List.take_succ_cons, List.take_take,
      min_eq_left (Nat.le_succ n)]

theorem addPattern_not_dup {st : PatternStore} {p : PatternSignal}
    (h : ¬ isDuplicate (mapGet st.patterns p.symbol) p) :
    (addPattern st p).patterns =
      mapSet st.patterns p.symbol
        (jsTake (p :: mapGet st.patterns p.symbol) st.config.maxPatterns) ∧
    (addPattern st p).config = st.config := by
  unfold addPattern
  rw [if_neg h]
  exact ⟨rfl, rfl⟩

theorem addPattern_dup {st : PatternStore} {p : PatternSignal}
    (h : isDuplicate (mapGet st.patterns p.symbol) p) : addPattern st p = st := by
  unfold addPattern
  rw [if_pos h]

/-! ## C2 -/

/-- C2 (counterexample): from a state already holding a doji signal at time
0 for symbol X, ingest a doji at 59 999 ms (same symbol and name, less than
60 s apart from its partner at 119 998 ms).  The first of the pair is itself
deduplicated against the pre-existing entry and never stored, and the second
is stored because it is 60 s away from that entry — leaving two doji entries,
neither outcome the claim predicts. -/
theorem c2_cex :
    (mkSig "a" "doji" 59999).symbol = (mkSig "b" "doji" 119998).symbol ∧
    (mkSig "a" "doji" 59999).patternName = (mkSig "b" "doji" 119998).patternName ∧
    |(mkSig "a" "doji" 59999).detectedAt - (mkSig "b" "doji" 119998).detectedAt| < 60000 ∧
    ((mapGet (addPattern (addPattern storeWithDoji (mkSig "a" "doji" 59999))
        (mkSig "b" "doji" 119998)).patterns "X").filter
      (fun q => q.patternName == "doji")).length = 2 ∧
    (mkSig "a" "doji" 59999) ∉
      mapGet (addPattern (addPattern storeWithDoji (mkSig "a" "doji" 59999))
        (mkSig "b" "doji" 119998)).patterns "X" := by
  refine ⟨by decide, by decide, by decide, by decide, by decide⟩

/-- C2 (amended): provided the store holds no signal with the same pattern
name for that symbol and `maxPatterns ≥ 1`, ingesting the first signal and
then a second with the same symbol and pattern name less than 60 000 ms away
silently drops the second (the state is unchanged by it) and leaves exactly
one stored entry for that pattern name — the first. -/
theorem c2_dedup_within_minute (st : PatternStore) (s1 s2 : PatternSignal)
    (hsym : s2.symbol = s1.symbol) (hname : s2.patternName = s1.patternName)
    (hclose : |s1.detectedAt - s2.detectedAt| < 60000)
    (hmax : 1 ≤ st.config.maxPatterns)
    (hfresh : ∀ q ∈ mapGet st.patterns s1.symbol, q.patternName ≠ s1.patternName) :
    addPattern (addPattern st s1) s2 = addPattern st s1 ∧
    (mapGet (addPattern (addPattern st s1) s2).patterns s1.symbol).filter
      (fun q => q.patternName == s1.patternName) = [s1] := by
  have hnd1 : ¬ isDuplicate (mapGet st.patterns s1.symbol) s1 := by
    rintro ⟨q, hq, hqn, _⟩
    exact hfresh q hq hqn
  obtain ⟨hpat1, hcfg1⟩ := addPattern_not_dup hnd1
  obtain ⟨n, hn⟩ : ∃ n, st.config.maxPatterns.toNat = n + 1 :=
    ⟨st.config.maxPatterns.toNat - 1, by omega⟩
  have hJ : jsTake (s1 :: mapGet st.patterns s1.symbol) st.config.maxPatterns =
      s1 :: (mapGet st.patterns s1.symbol).take n := by
    unfold jsTake
    rw [if_neg (by omega), hn, List.take_succ_cons]
  have hL1 : mapGet (addPattern st s1).patterns s1.symbol =
      s1 :: (mapGet st.patterns s1.symbol).take n := by
    rw [hpat1, mapGet_mapSet_self, hJ]
  have hdup2 : isDuplicate (mapGet (addPattern st s1).patterns s2.symbol) s2 := by
    rw [hsym, hL1]
    exact ⟨s1, List.mem_cons_self _ _, hname.symm, hclose⟩
  have hstep2 : addPattern (addPattern st s1) s2 = addPattern st s1 :=
    addPattern_dup hdup2
  refine ⟨hstep2, ?_⟩
  rw [hstep2, hL1]
  rw [List.filter_cons, if_pos (by simp)]
  have hrest : ((mapGet st.patterns s1.symbol).take n).filter
      (fun q => q.patternName == s1.patternName) = [] := by
    rw [List.filter_eq_nil_iff]
    intro q hq
    have : q ∈ mapGet st.patterns s1.symbol := List.take_subset _ _ hq
    simpa using hfresh q this
  rw [hrest]

theorem c2_witness :
    addPattern (addPattern defaultStore (mkSig "w1" "doji" 0)) (mkSig "w2" "doji" 1000) =
      addPattern defaultStore (mkSig "w1" "doji" 0) ∧
    (mapGet (addPattern (addPattern defaultStore (mkSig "w1" "doji" 0))
        (mkSig "w2" "doji" 1000)).patterns
      (mkSig "w1" "doji" 0).symbol).filter
      (fun q => q.patternName == (mkSig "w1" "doji" 0).patternName) =
      [mkSig "w1" "doji" 0] :=
  c2_dedup_within_minute defaultStore (mkSig "w1" "doji" 0) (mkSig "w2" "doji" 1000)
    (by decide) (by decide) (by decide) (by decide) (by decide)

/-! ## C3 -/

theorem ingestAll_loop (s : String) (m : ℕ) :
    ∀ (l done : List PatternSignal) (st : PatternStore),
      st.config.maxPatterns = (m : ℤ) →
      (∀ p ∈ l, p.symbol = s) →
      List.Pairwise nondup (done ++ l) →
      mapGet st.patterns s = done.reverse.take m →
      mapGet (ingestAll st l).patterns s = (done ++ l).reverse.take m := by
  intro l
  induction l with
  | nil =>
    intro done st hm hsym hpw hinv
    simpa [ingestAll] using hinv
  | cons x xs ih =>
    intro done st hm hsym hpw hinv
    have hx : x.symbol = s := hsym x (List.mem_cons_self _ _)
    have hnd : ¬ isDuplicate (mapGet st.patterns x.symbol) x := by
      rw [hx, hinv]
      rintro ⟨q, hq, hqn, hqt⟩
      have hq1 : q ∈ done.reverse := List.take_subset _ _ hq
      have hq2 : q ∈ done := List.mem_reverse.mp hq1
      have hnd := (List.pairwise_append.mp hpw).2.2 q hq2 x (List.mem_cons_self _ _)
      exact hnd ⟨hqn, hqt⟩
    obtain ⟨hpat, hcfg⟩ := addPattern_not_dup hnd
    have hnew : mapGet (addPattern st x).patterns s = ((done ++ [x]).reverse).take m := by
      rw [hpat, hx, mapGet_mapSet_self, hinv, hm, jsTake_coe,
        take_cons_take, List.reverse_append, List.reverse_singleton,
        List.singleton_append]
    have hrec := ih (done ++ [x]) (addPattern st x) (by rw [hcfg, hm])
      (fun p hp => hsym p (List.mem_cons_of_mem _ hp))
      (by rwa [List.append_assoc, List.singleton_append])
      hnew
    rw [List.append_assoc, List.singleton_append] at hrec
    simpa [ingestAll] using hrec

/-- C3: starting from a store with nothing for symbol `s` whose bound is
`maxPatterns = m`, ingesting `m + k` pairwise non-duplicate signals for `s`
(`k > 0`) leaves exactly `m` stored entries, and they are the `m` most
recently ingested signals in most-recent-first order. -/
theorem c3_bounded_history (st : PatternStore) (s : String)
    (l : List PatternSignal) (m k : ℕ)
    (hm : st.config.maxPatterns = (m : ℤ)) (hk : 0 < k) (hlen : l.length = m + k)
    (hsym : ∀ p ∈ l, p.symbol = s) (hnd : List.Pairwise nondup l)
    (hempty : mapGet st.patterns s = []) :
    mapGet (ingestAll st l).patterns s = l.reverse.take m ∧
    (mapGet (ingestAll st l).patterns s).length = m := by
  have h := ingestAll_loop s m l [] st hm hsym (by simpa using hnd)
    (by simpa using hempty)
  rw [List.nil_append] at h
  refine ⟨h, ?_⟩
  rw [h, List.length_take, List.length_reverse, hlen]
  omega

theorem c3_witness :
    mapGet (ingestAll smallStore
      [mkSig "x1" "doji" 0, mkSig "x2" "hammer" 0, mkSig "x3" "marubozu" 0]).patterns "X" =
      [mkSig "x3" "marubozu" 0, mkSig "x2" "hammer" 0] ∧
    (mapGet (ingestAll smallStore
      [mkSig "x1" "doji" 0, mkSig "x2" "hammer" 0, mkSig "x3" "marubozu" 0]).patterns "X").length = 2 := by
  have h := c3_bounded_history smallStore "X"
    [mkSig "x1" "doji" 0, mkSig "x2" "hammer" 0, mkSig "x3" "marubozu" 0] 2 1
    (by decide) (by decide) (by decide) (by decide) (by decide) (by decide)
  simpa using h

/-! ## Per-rule lemmas for the classifier -/

theorem bodySize_pos_of_ne {c : Candle} (h : c.close ≠ c.«open») : 0 < bodySize c :=
  abs_pos.mpr (sub_ne_zero.mpr h)

theorem currentOf_mem {candles : List Candle} (h : candles ≠ []) :
    currentOf candles ∈ candles := by
  unfold currentOf
  have hlen : candles.length - 1 < candles.length := by
    have := List.length_pos.mpr h
    omega
  rw [List.getD_eq_getElem?_getD, List.getElem?_eq_getElem hlen]
  exact List.getElem_mem hlen

theorem detectDoji_spec {c : Candle} {avg : ℚ} {r : PatternResult}
    (h : detectDoji c avg = some r) :
    r.patternName = "doji" ∧
    ∃ q, r.confidence = JNum.fin q ∧ 0 ≤ q ∧ q ≤ 0.9 := by
  unfold detectDoji at h
  split at h
  case isTrue hc =>
    obtain ⟨h1, h2, _⟩ := hc
    injection h with h
    subst h
    have hx : 0 ≤ bodySize c / candleRange c :=
      div_nonneg (bodySize_nonneg c) (le_of_lt h1)
    exact ⟨rfl, _, rfl, by linarith, by linarith⟩
  case isFalse => exact absurd h (by simp)

theorem detectHammer_spec {c : Candle} {avg : ℚ} {pc : List Candle} {r : PatternResult}
    (havg : 0 ≤ avg) (h : detectHammer c avg pc = some r) :
    r.patternName = "hammer" ∧
    ∃ q, r.confidence = JNum.fin q ∧ 0 ≤ q ∧ q ≤ 0.95 := by
  unfold detectHammer at h
  split at h
  case isTrue hc =>
    obtain ⟨h1, h2, h3, h4⟩ := hc
    injection h with h
    subst h
    have hb : (0:ℚ) < bodySize c := lt_of_le_of_lt (mul_nonneg havg (by norm_num)) h1
    have hlw : (0:ℚ) ≤ lowerWick c := by linarith [bodySize_nonneg c]
    have hq0 : (0:ℚ) ≤ lowerWick c / bodySize c / 10 :=
      div_nonneg (div_nonneg hlw hb.le) (by norm_num)
    refine ⟨rfl, _, rfl, ?_, min_le_right _ _⟩
    refine le_min ?_ (by norm_num)
    split
    · linarith
    · linarith
  case isFalse => exact absurd h (by simp)

theorem detectInvertedHammer_spec {c : Candle} {avg : ℚ} {pc : List Candle}
    {r : PatternResult} (havg : 0 ≤ avg) (h : detectInvertedHammer c avg pc = some r) :
    r.patternName = "inverted_hammer" ∧
    ∃ q, r.confidence = JNum.fin q ∧ 0 ≤ q ∧ q ≤ 0.9 := by
  unfold detectInvertedHammer at h
  split at h
  case isTrue hc =>
    obtain ⟨h1, h2, h3, h4⟩ := hc
    injection h with h
    subst h
    have hb : (0:ℚ) < bodySize c := lt_of_le_of_lt (mul_nonneg havg (by norm_num)) h1
    have huw : (0:ℚ) ≤ upperWick c := by linarith [bodySize_nonneg c]
    have hq0 : (0:ℚ) ≤ upperWick c / bodySize c / 10 :=
      div_nonneg (div_nonneg huw hb.le) (by norm_num)
    refine ⟨rfl, _, rfl, ?_, min_le_right _ _⟩
    refine le_min ?_ (by norm_num)
    split
    · linarith
    · linarith
  case isFalse => exact absurd h (by simp)

theorem detectHangingMan_spec {c : Candle} {avg : ℚ} {pc : List Candle}
    {r : PatternResult} (havg : 0 ≤ avg) (h : detectHangingMan c avg pc = some r) :
    r.patternName = "hanging_man" ∧
    ∃ q, r.confidence = JNum.fin q ∧ 0 ≤ q ∧ q ≤ 0.85 := by
  unfold detectHangingMan at h
  split at h
  case isTrue hc =>
    split at h
    case isTrue =>
      obtain ⟨h1, h2, h3, h4⟩ := hc
      injection h with h
      subst h
      have hb : (0:ℚ) < bodySize c := lt_of_le_of_lt (mul_nonneg havg (by norm_num)) h1
      have hlw : (0:ℚ) ≤ lowerWick c := by linarith [bodySize_nonneg c]
      have hq0 : (0:ℚ) ≤ lowerWick c / bodySize c / 10 :=
        div_nonneg (div_nonneg hlw hb.le) (by norm_num)
      refine ⟨rfl, _, rfl, ?_, min_le_right _ _⟩
      exact le_min (by linarith) (by norm_num)
    case isFalse => exact absurd h (by simp)
  case isFalse => exact absurd h (by simp)

theorem detectSpinningTop_spec {c : Candle} {avg : ℚ} {r : PatternResult}
    (h : detectSpinningTop c avg = some r) :
    r.patternName = "spinning_top" ∧ r.confidence = JNum.fin 0.6 := by
  unfold detectSpinningTop at h
  split at h
  case isTrue =>
    injection h with h
    subst h
    exact ⟨rfl, rfl⟩
  case isFalse => exact absurd h (by simp)

theorem detectMarubozu_name {c : Candle} {avg : ℚ} {r : PatternResult}
    (h : detectMarubozu c avg = some r) : r.patternName = "marubozu" := by
  unfold detectMarubozu at h
  by_cases h0 : candleRange c = 0
  · rw [if_pos h0] at h
    split at h
    next =>
      injection h with h
      subst h
      rfl
    next => exact absurd h (by simp)
  · rw [if_neg h0] at h
    split at h
    next =>
      injection h with h
      subst h
      rfl
    next => exact absurd h (by simp)

theorem detectMarubozu_spec {c : Candle} {avg : ℚ} {r : PatternResult}
    (havg : 0 ≤ avg) (hvalid : bodySize c ≤ candleRange c)
    (h : detectMarubozu c avg = some r) :
    r.patternName = "marubozu" ∧
    ∃ q, r.confidence = JNum.fin q ∧ 0 ≤ q ∧ q ≤ 0.9 := by
  unfold detectMarubozu at h
  by_cases h0 : candleRange c = 0
  · rw [if_pos h0] at h
    split at h
    next hc =>
      exfalso
      rw [h0] at hvalid
      exact absurd (lt_of_lt_of_le hc.2.2.2 hvalid) (lt_irrefl 0)
    next => exact absurd h (by simp)
  · rw [if_neg h0] at h
    split at h
    next hc =>
      obtain ⟨h1, h2, h3, h4⟩ := hc
      have hb : (0:ℚ) < bodySize c := lt_of_le_of_lt (mul_nonneg havg (by norm_num)) h1
      have hrpos : 0 < candleRange c := lt_of_lt_of_le hb hvalid
      have hle1 : bodySize c / candleRange c ≤ 1 := (div_le_one hrpos).mpr hvalid
      injection h with h
      subst h
      exact ⟨rfl, _, rfl, by linarith, by linarith⟩
    next => exact absurd h (by simp)

theorem detectEngulfing_spec {curr prev : Candle} {r : PatternResult}
    (h : detectEngulfing curr prev = some r) :
    (r.patternName = "bullish_engulfing" ∨ r.patternName = "bearish_engulfing") ∧
    ∃ q, r.confidence = JNum.fin q ∧ 0 ≤ q ∧ q ≤ 0.95 := by
  unfold detectEngulfing at h
  split at h
  case isTrue hc =>
    have hb : 0 < bodySize prev := bodySize_pos_of_ne (ne_of_lt hc.1)
    have h0 : (0:ℚ) ≤ min (bodySize curr / bodySize prev / 10) 0.2 :=
      le_min (div_nonneg (div_nonneg (bodySize_nonneg _) hb.le) (by norm_num))
        (by norm_num)
    have h1 : min (bodySize curr / bodySize prev / 10) 0.2 ≤ 0.2 := min_le_right _ _
    injection h with h
    subst h
    exact ⟨Or.inl rfl, _, rfl, by linarith, by linarith⟩
  case isFalse =>
    split at h
    case isTrue hc =>
      have hb : 0 < bodySize prev := bodySize_pos_of_ne (ne_of_gt hc.1)
      have h0 : (0:ℚ) ≤ min (bodySize curr / bodySize prev / 10) 0.2 :=
        le_min (div_nonneg (div_nonneg (bodySize_nonneg _) hb.le) (by norm_num))
          (by norm_num)
      have h1 : min (bodySize curr / bodySize prev / 10) 0.2 ≤ 0.2 := min_le_right _ _
      injection h with h
      subst h
      exact ⟨Or.inr rfl, _, rfl, by linarith, by linarith⟩
    case isFalse => exact absurd h (by simp)

theorem detectHarami_spec {curr prev : Candle} {r : PatternResult}
    (h : detectHarami curr prev = some r) :
    (r.patternName = "bullish_harami" ∨ r.patternName = "bearish_harami") ∧
    r.confidence = JNum.fin 0.65 := by
  unfold detectHarami at h
  split at h
  case isTrue =>
    injection h with h
    subst h
    exact ⟨Or.inl rfl, rfl⟩
  case isFalse =>
    split at h
    case isTrue =>
      injection h with h
      subst h
      exact ⟨Or.inr rfl, rfl⟩
    case isFalse => exact absurd h (by simp)

theorem detectMorningStar_spec {candles : List Candle} {r : PatternResult}
    (h : detectMorningStar candles = some r) :
    r.patternName = "morning_star" ∧ r.confidence = JNum.fin 0.8 := by
  unfold detectMorningStar at h
  split at h
  · split at h
    case isTrue =>
      injection h with h
      subst h
      exact ⟨rfl, rfl⟩
    case isFalse => exact absurd h (by simp)
  · exact absurd h (by simp)

theorem detectEveningStar_spec {candles : List Candle} {r : PatternResult}
    (h : detectEveningStar candles = some r) :
    r.patternName = "evening_star" ∧ r.confidence = JNum.fin 0.8 := by
  unfold detectEveningStar at h
  split at h
  · split at h
    case isTrue =>
      injection h with h
      subst h
      exact ⟨rfl, rfl⟩
    case isFalse => exact absurd h (by simp)
  · exact absurd h (by simp)

theorem detectThreeWhiteSoldiers_spec {candles : List Candle} {r : PatternResult}
    (h : detectThreeWhiteSoldiers candles = some r) :
    r.patternName = "three_white_soldiers" ∧ r.confidence = JNum.fin 0.85 := by
  unfold detectThreeWhiteSoldiers at h
  split at h
  · split at h
    case isTrue =>
      injection h with h
      subst h
      exact ⟨rfl, rfl⟩
    case isFalse => exact absurd h (by simp)
  · exact absurd h (by simp)

theorem detectThreeBlackCrows_spec {candles : List Candle} {r : PatternResult}
    (h : detectThreeBlackCrows candles = some r) :
    r.patternName = "three_black_crows" ∧ r.confidence = JNum.fin 0.85 := by
  unfold detectThreeBlackCrows at h
  split at h
  · split at h
    case isTrue =>
      injection h with h
      subst h
      exact ⟨rfl, rfl⟩
    case isFalse => exact absurd h (by simp)
  · exact absurd h (by simp)

/-! ## C6 -/

/-- C6 (counterexample): on a bar whose body (10) exceeds its range (5) — a
geometry violation the system accepts rather than rejects — the marubozu rule
emits confidence `0.7 + (10/5) * 0.2 = 1.1`, above both its 0.9 ceiling and
1. -/
theorem c6_cex :
    (⟨"marubozu", .bullish, .fin (11/10)⟩ : PatternResult) ∈
      detectPatterns bodyOverRangeList ∧
    ¬ ((11/10 : ℚ) ≤ 0.9) ∧ ¬ ((11/10 : ℚ) ≤ 1) := by
  refine ⟨by decide, by decide, by decide⟩

/-- C6 (amended): on candle lists whose bars satisfy the OHLC validity
relation `body ≤ range`, every emitted confidence is a finite value in
`[0, cap]` for the emitting rule's ceiling (doji 0.9, hammer 0.95,
inverted hammer 0.9, hanging man 0.85, marubozu 0.9, engulfing 0.95), never
above 1 or below 0, and the fixed-confidence rules return exactly their
constants. -/
theorem c6_confidence_caps (candles : List Candle)
    (hvalid : ∀ c ∈ candles, bodySize c ≤ candleRange c) :
    ∀ r ∈ detectPatterns candles,
      ∃ q, r.confidence = JNum.fin q ∧ 0 ≤ q ∧ q ≤ ruleCap r.patternName ∧
        q ≤ 1 ∧ ∀ v, fixedConf r.patternName = some v → q = v := by
  intro r hr
  unfold detectPatterns at hr
  split at hr
  case isTrue => simp at hr
  case isFalse hlen =>
    have havg : 0 ≤ avgBodyOf candles := avgBodySize_nonneg _
    have hne : candles ≠ [] := by
      intro hnil
      rw [hnil] at hlen
      simp at hlen
    have hcur : bodySize (currentOf candles) ≤ candleRange (currentOf candles) :=
      hvalid _ (currentOf_mem hne)
    simp only [List.mem_append, Option.mem_toList, Option.mem_def] at hr
    rcases hr with ((((((((((h|h)|h)|h)|h)|h)|h)|h)|h)|h)|h)|h
    · obtain ⟨hn, q, hq, h0, hcap⟩ := detectDoji_spec h
      rw [hn]
      refine ⟨q, hq, h0, ?_, le_trans hcap (by norm_num), ?_⟩
      · rw [(by decide : ruleCap "doji" = 0.9)]
        exact hcap
      · intro v hv
        rw [(by decide : fixedConf "doji" = (none : Option ℚ))] at hv
        exact Option.noConfusion hv
    · obtain ⟨hn, q, hq, h0, hcap⟩ := detectHammer_spec havg h
      rw [hn]
      refine ⟨q, hq, h0, ?_, le_trans hcap (by norm_num), ?_⟩
      · rw [(by decide : ruleCap "hammer" = 0.95)]
        exact hcap
      · intro v hv
        rw [(by decide : fixedConf "hammer" = (none : Option ℚ))] at hv
        exact Option.noConfusion hv
    · obtain ⟨hn, q, hq, h0, hcap⟩ := detectInvertedHammer_spec havg h
      rw [hn]
      refine ⟨q, hq, h0, ?_, le_trans hcap (by norm_num), ?_⟩
      · rw [(by decide : ruleCap "inverted_hammer" = 0.9)]
        exact hcap
      · intro v hv
        rw [(by decide : fixedConf "inverted_hammer" = (none : Option ℚ))] at hv
        exact Option.noConfusion hv
    · obtain ⟨hn, q, hq, h0, hcap⟩ := detectHangingMan_spec havg h
      rw [hn]
      refine ⟨q, hq, h0, ?_, le_trans hcap (by norm_num), ?_⟩
      · rw [(by decide : ruleCap "hanging_man" = 0.85)]
        exact hcap
      · intro v hv
        rw [(by decide : fixedConf "hanging_man" = (none : Option ℚ))] at hv
        exact Option.noConfusion hv
    · obtain ⟨hn, hconf⟩ := detectSpinningTop_spec h
      rw [hn]
      refine ⟨0.6, hconf, by norm_num, ?_, by norm_num, ?_⟩
      · rw [(by decide : ruleCap "spinning_top" = 0.6)]
      · intro v hv
        rw [(by decide : fixedConf "spinning_top" = some (0.6 : ℚ))] at hv
        exact Option.some.inj hv
    · obtain ⟨hn, q, hq, h0, hcap⟩ := detectMarubozu_spec havg hcur h
      rw [hn]
      refine ⟨q, hq, h0, ?_, le_trans hcap (by norm_num), ?_⟩
      · rw [(by decide : ruleCap "marubozu" = 0.9)]
        exact hcap
      · intro v hv
        rw [(by decide : fixedConf "marubozu" = (none : Option ℚ))] at hv
        exact Option.noConfusion hv
    · obtain ⟨hno, q, hq, h0, hcap⟩ := detectEngulfing_spec h
      rcases hno with hn | hn <;> rw [hn]
      · refine ⟨q, hq, h0, ?_, le_trans hcap (by norm_num), ?_⟩
        · rw [(by decide : ruleCap "bullish_engulfing" = 0.95)]
          exact hcap
        · intro v hv
          rw [(by decide : fixedConf "bullish_engulfing" = (none : Option ℚ))] at hv
          exact Option.noConfusion hv
      · refine ⟨q, hq, h0, ?_, le_trans hcap (by norm_num), ?_⟩
        · rw [(by decide : ruleCap "bearish_engulfing" = 0.95)]
          exact hcap
        · intro v hv
          rw [(by decide : fixedConf "bearish_engulfing" = (none : Option ℚ))] at hv
          exact Option.noConfusion hv
    · obtain ⟨hno, hconf⟩ := detectHarami_spec h
      rcases hno with hn | hn <;> rw [hn]
      · refine ⟨0.65, hconf, by norm_num, ?_, by norm_num, ?_⟩
        · rw [(by decide : ruleCap "bullish_harami" = 0.65)]
        · intro v hv
          rw [(by decide : fixedConf "bullish_harami" = some (0.65 : ℚ))] at hv
          exact Option.some.inj hv
      · refine ⟨0.65, hconf, by norm_num, ?_, by norm_num, ?_⟩
        · rw [(by decide : ruleCap "bearish_harami" = 0.65)]
        · intro v hv
          rw [(by decide : fixedConf "bearish_harami" = some (0.65 : ℚ))] at hv
          exact Option.some.inj hv
    · obtain ⟨hn, hconf⟩ := detectMorningStar_spec h
      rw [hn]
      refine ⟨0.8, hconf, by norm_num, ?_, by norm_num, ?_⟩
      · rw [(by decide : ruleCap "morning_star" = 0.8)]
      · intro v hv
        rw [(by decide : fixedConf "morning_star" = some (0.8 : ℚ))] at hv
        exact Option.some.inj hv
    · obtain ⟨hn, hconf⟩ := detectEveningStar_spec h
      rw [hn]
      refine ⟨0.8, hconf, by norm_num, ?_, by norm_num, ?_⟩
      · rw [(by decide : ruleCap "evening_star" = 0.8)]
      · intro v hv
        rw [(by decide : fixedConf "evening_star" = some (0.8 : ℚ))] at hv
        exact Option.some.inj hv
    · obtain ⟨hn, hconf⟩ := detectThreeWhiteSoldiers_spec h
      rw [hn]
      refine ⟨0.85, hconf, by norm_num, ?_, by norm_num, ?_⟩
      · rw [(by decide : ruleCap "three_white_soldiers" = 0.85)]
      · intro v hv
        rw [(by decide : fixedConf "three_white_soldiers" = some (0.85 : ℚ))] at hv
        exact Option.some.inj hv
    · obtain ⟨hn, hconf⟩ := detectThreeBlackCrows_spec h
      rw [hn]
      refine ⟨0.85, hconf, by norm_num, ?_, by norm_num, ?_⟩
      · rw [(by decide : ruleCap "three_black_crows" = 0.85)]
      · intro v hv
        rw [(by decide : fixedConf "three_black_crows" = some (0.85 : ℚ))] at hv
        exact Option.some.inj hv

theorem c6_witness :
    ∃ q, (⟨"hammer", .bullish, .fin (17/20)⟩ : PatternResult).confidence = JNum.fin q ∧
      0 ≤ q ∧ q ≤ ruleCap "hammer" ∧ q ≤ 1 ∧
      ∀ v, fixedConf "hammer" = some v → q = v :=
  c6_confidence_caps hangingManExample (by decide)
    ⟨"hammer", .bullish, .fin (17/20)⟩ (by decide)

/-! ## C10 -/

/-- C10: whenever the classifier's output contains a hanging-man signal it
also contains a hammer signal for the same (last) bar — the hanging-man
geometry is exactly the hammer geometry and the hammer rule has no trend
requirement — and on a concrete uptrend list one bar simultaneously carries
the bullish hammer and the bearish hanging-man signal. -/
theorem c10_hanging_man_implies_hammer :
    (∀ candles : List Candle,
      (∃ r ∈ detectPatterns candles, r.patternName = "hanging_man") →
      ∃ r ∈ detectPatterns candles, r.patternName = "hammer") ∧
    (∃ r ∈ detectPatterns hangingManExample,
      r.patternName = "hanging_man" ∧ r.patternType = PatternType.bearish) ∧
    (∃ r ∈ detectPatterns hangingManExample,
      r.patternName = "hammer" ∧ r.patternType = PatternType.bullish) := by
  refine ⟨?_, by decide, by decide⟩
  rintro candles ⟨r, hr, hname⟩
  unfold detectPatterns at hr ⊢
  split at hr
  case isTrue => simp at hr
  case isFalse hlen =>
    rw [if_neg hlen]
    have havg : 0 ≤ avgBodyOf candles := avgBodySize_nonneg _
    simp only [List.mem_append, Option.mem_toList, Option.mem_def] at hr
    rcases hr with ((((((((((h|h)|h)|h)|h)|h)|h)|h)|h)|h)|h)|h
    · exact absurd ((detectDoji_spec h).1.symm.trans hname) (by decide)
    · exact absurd ((detectHammer_spec havg h).1.symm.trans hname) (by decide)
    · exact absurd ((detectInvertedHammer_spec havg h).1.symm.trans hname) (by decide)
    · -- the hanging-man case: its geometric guard is the hammer's guard
      unfold detectHangingMan at h
      split at h
      case isTrue hgeom =>
        split at h
        case isTrue =>
          refine ⟨⟨"hammer", .bullish,
            .fin (min (0.65 + lowerWick (currentOf candles) /
              bodySize (currentOf candles) / 10 +
              (if inDowntrend candles.dropLast then 0.15 else 0)) 0.95)⟩, ?_, rfl⟩
          simp only [List.mem_append, Option.mem_toList, Option.mem_def]
          refine Or.inl (Or.inl (Or.inl (Or.inl (Or.inl (Or.inl (Or.inl (Or.inl
            (Or.inl (Or.inl (Or.inr ?_))))))))))
          unfold detectHammer
          rw [if_pos hgeom]
        case isFalse => exact absurd h (by simp)
      case isFalse => exact absurd h (by simp)
    · exact absurd ((detectSpinningTop_spec h).1.symm.trans hname) (by decide)
    · exact absurd ((detectMarubozu_name h).symm.trans hname) (by decide)
    · rcases (detectEngulfing_spec h).1 with hn | hn <;>
        exact absurd (hn.symm.trans hname) (by decide)
    · rcases (detectHarami_spec h).1 with hn | hn <;>
        exact absurd (hn.symm.trans hname) (by decide)
    · exact absurd ((detectMorningStar_spec h).1.symm.trans hname) (by decide)
    · exact absurd ((detectEveningStar_spec h).1.symm.trans hname) (by decide)
    · exact absurd ((detectThreeWhiteSoldiers_spec h).1.symm.trans hname) (by decide)
    · exact absurd ((detectThreeBlackCrows_spec h).1.symm.trans hname) (by decide)

theorem c10_witness :
    ∃ r ∈ detectPatterns hangingManExample, r.patternName = "hammer" :=
  c10_hanging_man_implies_hammer.1 hangingManExample (by decide)
